import Mathlib

/-!
Shallow embedding of the dance-area slice of the town application:
the server-side `DanceArea` state (src/townService/src/town/DanceArea.ts)
and the client-side `DanceAreaController`
(src/frontend/src/classes/DanceAreaController.ts).

JavaScript `number` values are modelled as `ℚ`, `Math.random()` as an
abstract stream `rng : ℕ → ℚ` of values in `[0,1)` consumed in call order,
and `Math.floor` as `Int.floor`.  Stateful methods become functions from the
state to the new state (paired with the list of emitted events where the
method broadcasts).
-/

/-- An arrow prompt: `{ display, direction, duration }` from `CoveyTownSocket`.
`direction` ranges over the `ArrowDirection` strings and `display` over the
glyph strings; `duration` is a JS number. -/
structure Arrow where
  display : String
  direction : String
  duration : ℚ
  deriving DecidableEq, Repr

/-- `ScoreObject`: `{ userId: string, score: number }`. -/
structure ScoreObject where
  userId : String
  score : ℚ
  deriving DecidableEq, Repr

/-- `DanceAreaModel`, the wire form exchanged between server and client.
`Difficulty` is a numeric enum, modelled as `ℤ`. -/
structure DanceAreaModel where
  id : String
  difficulty : ℤ
  correct : List Arrow
  userClicks : List Arrow
  leaderboard : List ScoreObject
  currentScore : ScoreObject
  timer : ℚ
  deriving DecidableEq, Repr

/-- `BoundingBox` geometry. -/
structure BoundingBox where
  x : ℚ
  y : ℚ
  width : ℚ
  height : ℚ
  deriving DecidableEq, Repr

/-- `const ARROWLENGTH = 20`. -/
def ARROWLENGTH : ℕ := 20

/-- `const directions: ArrowDirection[] = ['L', 'R', 'U', 'D']`. -/
def directions : List String := ["L", "R", "U", "D"]

/-- `const displays: Display[] = ['⇦', '⇨', '⇧', '⇩']`. -/
def displays : List String := ["⇦", "⇨", "⇧", "⇩"]

/-- One loop iteration of the constructor's sequence generation, fed the three
`Math.random()` results it consumes:
`directions[Math.floor(Math.random() * directions.length)]`,
`displays[Math.floor(Math.random() * displays.length)]`,
`Math.floor(Math.random() * 10) + 1`. -/
def genArrow (r1 r2 r3 : ℚ) : Arrow :=
  { direction := directions.getD (Int.floor (r1 * directions.length)).toNat ""
    display := displays.getD (Int.floor (r2 * displays.length)).toNat ""
    duration := ((Int.floor (r3 * 10) + 1 : ℤ) : ℚ) }

/-- The constructor's `for (let i = 0; i < ARROWLENGTH; i++)` loop pushing
one generated arrow per iteration; iteration `i` consumes the random draws
`rng (3*i)`, `rng (3*i+1)`, `rng (3*i+2)`. -/
def genCorrect (rng : ℕ → ℚ) : List Arrow :=
  (List.range ARROWLENGTH).map fun i => genArrow (rng (3 * i)) (rng (3 * i + 1)) (rng (3 * i + 2))

/-- Server-side `DanceArea` state.  `occupants` is the `_occupants` list of
the base `InteractableArea` (player ids). -/
structure DanceArea where
  id : String
  boundingBox : BoundingBox
  occupants : List String
  difficulty : ℤ
  correct : List Arrow
  userClicks : List Arrow
  leaderboard : List ScoreObject
  currentScore : ScoreObject
  timer : ℚ
  deriving DecidableEq, Repr

/-- `DanceArea` constructor.  `difficulty || 15` defaults on a falsy
difficulty, which for a numeric field is the value `0` (an absent field
reaching the destructuring behaves the same).  `leaderboard || new Array(10)`
never takes the right branch for a well-typed model, since a JS array —
even an empty one — is truthy, so the assignment is the provided list.
`timer = ARROWLENGTH * this._difficulty`. -/
def DanceArea.create (m : DanceAreaModel) (coordinates : BoundingBox) (rng : ℕ → ℚ) :
    DanceArea :=
  let difficulty : ℤ := if m.difficulty = 0 then 15 else m.difficulty
  { id := m.id
    boundingBox := coordinates
    occupants := []
    difficulty := difficulty
    correct := genCorrect rng
    userClicks := []
    leaderboard := m.leaderboard
    currentScore := m.currentScore
    timer := (ARROWLENGTH : ℚ) * (difficulty : ℚ) }

/-- `toModel()`: snapshot of the current state. -/
def DanceArea.toModel (a : DanceArea) : DanceAreaModel :=
  { id := a.id
    difficulty := a.difficulty
    correct := a.correct
    userClicks := a.userClicks
    leaderboard := a.leaderboard
    currentScore := a.currentScore
    timer := a.timer }

/-- `updateModel(updatedModel)`: bulk-replaces the six game fields, leaving
`id` (and geometry/occupants, which live in the base class) untouched. -/
def DanceArea.updateModel (a : DanceArea) (updatedModel : DanceAreaModel) : DanceArea :=
  { a with
    difficulty := updatedModel.difficulty
    correct := updatedModel.correct
    userClicks := updatedModel.userClicks
    leaderboard := updatedModel.leaderboard
    currentScore := updatedModel.currentScore
    timer := updatedModel.timer }

/-- A broadcast sent through the `TownEmitter`: either the area's full model
(`interactableUpdate`, what `_emitAreaChanged` sends) or a player-location
update (`playerMoved`, carrying the player's `interactableID`). -/
inductive TownEvent where
  | interactableUpdate (m : DanceAreaModel)
  | playerMoved (playerId : String) (interactableID : Option String)
  deriving DecidableEq, Repr

/-- Modelled from the spec: the base `InteractableArea.remove` (the base class
source is not part of this repository) removes the player from the occupant
set, clears the player's area reference and broadcasts that location change. -/
def DanceArea.removeBase (a : DanceArea) (p : String) : DanceArea × List TownEvent :=
  ({ a with occupants := a.occupants.filter fun q => q ≠ p },
   [TownEvent.playerMoved p none])

/-- Modelled from the spec: `_emitAreaChanged` (base class, not in this
repository) broadcasts the area's current full model to the town. -/
def DanceArea.emitAreaChanged (a : DanceArea) : List TownEvent :=
  [TownEvent.interactableUpdate a.toModel]

/-- `remove(player)`: `super.remove(player)`, then if `this._occupants.length
=== 0` reset difficulty to 15, `correct`/`userClicks` to empty, `leaderboard`
to itself, `currentScore` to `{userId:'', score:0}` and `timer` to
`ARROWLENGTH * this._difficulty`; finally `this._emitAreaChanged()`
unconditionally. -/
def DanceArea.remove (a : DanceArea) (p : String) : DanceArea × List TownEvent :=
  let base := a.removeBase p
  let a1 := base.1
  let a2 : DanceArea :=
    if a1.occupants.length = 0 then
      let difficulty : ℤ := 15
      { a1 with
        difficulty := difficulty
        correct := []
        userClicks := []
        leaderboard := a1.leaderboard
        currentScore := { userId := "", score := 0 }
        timer := (ARROWLENGTH : ℚ) * (difficulty : ℚ) }
    else a1
  (a2, base.2 ++ a2.emitAreaChanged)

/-- An `ITiledMapObject` as consumed by `fromMapObject`: `width` and `height`
are optional in the tiled-map format, so they are `Option ℚ`. -/
structure ITiledMapObject where
  x : ℚ
  y : ℚ
  width : Option ℚ
  height : Option ℚ
  name : String
  deriving DecidableEq, Repr

/-- JS falsiness of an optional numeric field: `undefined` and `0` are falsy. -/
def falsyNum : Option ℚ → Bool
  | none => true
  | some q => q = 0

/-- `static fromMapObject(mapObject, townEmitter)`: throws when
`!mapObject.width || !mapObject.height`, otherwise builds the bounding box
from the descriptor's geometry and constructs a `DanceArea` with
`id = mapObject.name`, difficulty 15, empty lists, zero score and
`timer = ARROWLENGTH * 15`. -/
def DanceArea.fromMapObject (mapObject : ITiledMapObject) (rng : ℕ → ℚ) :
    Except String DanceArea :=
  if falsyNum mapObject.width || falsyNum mapObject.height then
    Except.error "missing width/height for map object"
  else
    let box : BoundingBox :=
      { x := mapObject.x
        y := mapObject.y
        width := mapObject.width.getD 0
        height := mapObject.height.getD 0 }
    Except.ok (DanceArea.create
      { id := mapObject.name
        difficulty := 15
        correct := []
        userClicks := []
        leaderboard := []
        currentScore := { userId := "", score := 0 }
        timer := (ARROWLENGTH : ℚ) * 15 }
      box rng)

/-- Client-side `DanceAreaController`: holds the cached `_model`. -/
structure DanceAreaController where
  model : DanceAreaModel
  deriving DecidableEq, Repr

/-- An event emitted by the controller (`DanceAreaEvents`). -/
inductive ControllerEvent where
  | difficultyChange (difficulty : ℤ)
  | timerChange (timer : ℚ)
  | currentScoreChange (currentScore : ScoreObject)
  | correctChange (correct : List Arrow)
  | userClicksChange (userClicks : List Arrow)
  | leaderboardChange (leaderboard : List ScoreObject)
  deriving DecidableEq, Repr

/-- `get id()`. -/
def DanceAreaController.id (c : DanceAreaController) : String :=
  c.model.id

/-- `get defficulty()` (the getter is misspelled this way in the source). -/
def DanceAreaController.defficulty (c : DanceAreaController) : ℤ :=
  c.model.difficulty

/-- `get timer()`. -/
def DanceAreaController.timer (c : DanceAreaController) : ℚ :=
  c.model.timer

/-- `get currentScore()`. -/
def DanceAreaController.currentScore (c : DanceAreaController) : ScoreObject :=
  c.model.currentScore

/-- `get correct()`. -/
def DanceAreaController.correct (c : DanceAreaController) : List Arrow :=
  c.model.correct

/-- `get userClicks()`. -/
def DanceAreaController.userClicks (c : DanceAreaController) : List Arrow :=
  c.model.userClicks

/-- `get leaderboard()`. -/
def DanceAreaController.leaderboard (c : DanceAreaController) : List ScoreObject :=
  c.model.leaderboard

/-- `set difficulty(difficulty)`: guarded by
`this._model.difficulty !== difficulty`. -/
def DanceAreaController.setDifficulty (c : DanceAreaController) (difficulty : ℤ) :
    DanceAreaController × List ControllerEvent :=
  if c.model.difficulty ≠ difficulty then
    ({ model := { c.model with difficulty := difficulty } },
     [ControllerEvent.difficultyChange difficulty])
  else (c, [])

/-- `set timer(timer)`: guarded by `this._model.timer != timer`. -/
def DanceAreaController.setTimer (c : DanceAreaController) (timer : ℚ) :
    DanceAreaController × List ControllerEvent :=
  if c.model.timer ≠ timer then
    ({ model := { c.model with timer := timer } },
     [ControllerEvent.timerChange timer])
  else (c, [])

/-- `set currentScore(currentScore)`: the guard in the source is
`this._model.currentScore != this.currentScore` — it compares the cached
value with the getter's result, i.e. with itself (same reference in JS, so
`!=` is always false), not with the incoming parameter. -/
def DanceAreaController.setCurrentScore (c : DanceAreaController) (currentScore : ScoreObject) :
    DanceAreaController × List ControllerEvent :=
  if c.model.currentScore ≠ c.currentScore then
    ({ model := { c.model with currentScore := currentScore } },
     [ControllerEvent.currentScoreChange currentScore])
  else (c, [])

/-- `set correct(correct)`: guard is `this._model.correct != this.correct`,
again the cached value compared with itself. -/
def DanceAreaController.setCorrect (c : DanceAreaController) (correct : List Arrow) :
    DanceAreaController × List ControllerEvent :=
  if c.model.correct ≠ c.correct then
    ({ model := { c.model with correct := correct } },
     [ControllerEvent.correctChange correct])
  else (c, [])

/-- `set userClicks(userClicks)`: guard is
`this._model.userClicks != this.userClicks`, the cached value compared with
itself. -/
def DanceAreaController.setUserClicks (c : DanceAreaController) (userClicks : List Arrow) :
    DanceAreaController × List ControllerEvent :=
  if c.model.userClicks ≠ c.userClicks then
    ({ model := { c.model with userClicks := userClicks } },
     [ControllerEvent.userClicksChange userClicks])
  else (c, [])

/-- `set leaderboard(userClicks)` (the parameter really is named `userClicks`
in the source and is never used): guard is
`this._model.leaderboard != this.leaderboard`, the assignment is
`this._model.leaderboard = this.leaderboard` and the emission carries
`this.leaderboard` — every occurrence reads the cached value, never the
parameter. -/
def DanceAreaController.setLeaderboard (c : DanceAreaController) (userClicks : List ScoreObject) :
    DanceAreaController × List ControllerEvent :=
  if c.model.leaderboard ≠ c.leaderboard then
    ({ model := { c.model with leaderboard := c.leaderboard } },
     [ControllerEvent.leaderboardChange c.leaderboard])
  else (c, [])

/-- `updateFrom(updatedModel)`: assigns through the `difficulty`, `timer` and
`currentScore` setters, in that order. -/
def DanceAreaController.updateFrom (c : DanceAreaController) (updatedModel : DanceAreaModel) :
    DanceAreaController × List ControllerEvent :=
  let s1 := c.setDifficulty updatedModel.difficulty
  let s2 := s1.1.setTimer updatedModel.timer
  let s3 := s2.1.setCurrentScore updatedModel.currentScore
  (s3.1, s1.2 ++ s2.2 ++ s3.2)

section Theorems

lemma floor_mul_bounds {r : ℚ} (q : ℚ) (h0 : 0 ≤ r) (h1 : r < 1) (hq : 0 < q) :
    0 ≤ Int.floor (r * q) ∧ (Int.floor (r * q) : ℚ) < q := by
  constructor
  · exact Int.floor_nonneg.mpr (by positivity)
  · calc (Int.floor (r * q) : ℚ) ≤ r * q := Int.floor_le _
      _ < q := mul_lt_of_lt_one_left hq h1

lemma directions_getD_mem {i : ℕ} (h : i < 4) : directions.getD i "" ∈ directions := by
  interval_cases i <;> simp [directions]

lemma displays_getD_mem {i : ℕ} (h : i < 4) : displays.getD i "" ∈ displays := by
  interval_cases i <;> simp [displays]

lemma genArrow_wellformed {r1 r2 r3 : ℚ}
    (h1 : 0 ≤ r1 ∧ r1 < 1) (h2 : 0 ≤ r2 ∧ r2 < 1) (h3 : 0 ≤ r3 ∧ r3 < 1) :
    (∃ k : ℤ, (genArrow r1 r2 r3).duration = (k : ℚ) ∧ 1 ≤ k ∧ k ≤ 10) ∧
    (genArrow r1 r2 r3).direction ∈ directions ∧
    (genArrow r1 r2 r3).display ∈ displays := by
  have hb1 := floor_mul_bounds (4 : ℚ) h1.1 h1.2 (by norm_num)
  have hb2 := floor_mul_bounds (4 : ℚ) h2.1 h2.2 (by norm_num)
  have hb3 := floor_mul_bounds (10 : ℚ) h3.1 h3.2 (by norm_num)
  have hz1 : Int.floor (r1 * 4) < 4 := by exact_mod_cast hb1.2
  have hz2 : Int.floor (r2 * 4) < 4 := by exact_mod_cast hb2.2
  have hz3 : Int.floor (r3 * 10) < 10 := by exact_mod_cast hb3.2
  refine ⟨⟨Int.floor (r3 * 10) + 1, rfl, by omega, by omega⟩, ?_, ?_⟩
  · have hlen : ((directions.length : ℚ)) = 4 := by norm_num [directions]
    have : (Int.floor (r1 * directions.length)).toNat < 4 := by
      rw [hlen]; omega
    simpa [genArrow] using directions_getD_mem this
  · have hlen : ((displays.length : ℚ)) = 4 := by norm_num [displays]
    have : (Int.floor (r2 * displays.length)).toNat < 4 := by
      rw [hlen]; omega
    simpa [genArrow] using displays_getD_mem this

lemma genCorrect_length (rng : ℕ → ℚ) : (genCorrect rng).length = 20 := by
  simp [genCorrect, ARROWLENGTH]

lemma genCorrect_wellformed (rng : ℕ → ℚ) (h : ∀ n, 0 ≤ rng n ∧ rng n < 1) :
    ∀ a ∈ genCorrect rng,
      (∃ k : ℤ, a.duration = (k : ℚ) ∧ 1 ≤ k ∧ k ≤ 10) ∧
      a.direction ∈ directions ∧ a.display ∈ displays := by
  intro a ha
  simp only [genCorrect, List.mem_map, List.mem_range] at ha
  obtain ⟨i, _, rfl⟩ := ha
  exact genArrow_wellformed (h _) (h _) (h _)

lemma fromMapObject_ok_correct (o : ITiledMapObject) (rng : ℕ → ℚ) (a : DanceArea)
    (hok : DanceArea.fromMapObject o rng = Except.ok a) : a.correct = genCorrect rng := by
  unfold DanceArea.fromMapObject at hok
  split at hok
  · exact absurd hok (by simp)
  · cases hok
    rfl

/-- C1: every construction of a server `DanceArea` — through the constructor
or through `fromMapObject` — yields a `correct` sequence of exactly 20
entries, each with an integer duration in `[1,10]`, a direction from the
4-element direction set and a display from the 4-element glyph set, for every
outcome of the random source. -/
theorem danceArea_correct_sequence_wellformed (m : DanceAreaModel) (box : BoundingBox)
    (rng : ℕ → ℚ) (h : ∀ n, 0 ≤ rng n ∧ rng n < 1) :
    ((DanceArea.create m box rng).correct.length = 20 ∧
      ∀ a ∈ (DanceArea.create m box rng).correct,
        (∃ k : ℤ, a.duration = (k : ℚ) ∧ 1 ≤ k ∧ k ≤ 10) ∧
        a.direction ∈ directions ∧ a.display ∈ displays) ∧
    (∀ (o : ITiledMapObject) (b : DanceArea), DanceArea.fromMapObject o rng = Except.ok b →
      b.correct.length = 20 ∧
      ∀ a ∈ b.correct,
        (∃ k : ℤ, a.duration = (k : ℚ) ∧ 1 ≤ k ∧ k ≤ 10) ∧
        a.direction ∈ directions ∧ a.display ∈ displays) := by
  have hcreate : (DanceArea.create m box rng).correct = genCorrect rng := rfl
  refine ⟨⟨by rw [hcreate]; exact genCorrect_length rng,
          by rw [hcreate]; exact genCorrect_wellformed rng h⟩, ?_⟩
  intro o b hok
  rw [fromMapObject_ok_correct o rng b hok]
  exact ⟨genCorrect_length rng, genCorrect_wellformed rng h⟩

def rngHalf : ℕ → ℚ := fun _ => 1 / 2

def modelW : DanceAreaModel :=
  { id := "w-area", difficulty := 15, correct := [], userClicks := [],
    leaderboard := [], currentScore := { userId := "", score := 0 }, timer := 300 }

def boxW : BoundingBox := { x := 0, y := 0, width := 1, height := 1 }

/-- Witness for C1 at the constant random stream `1/2`. -/
theorem danceArea_correct_sequence_wellformed_witness :
    (∀ n, 0 ≤ rngHalf n ∧ rngHalf n < 1) ∧
    ((DanceArea.create modelW boxW rngHalf).correct.length = 20 ∧
      ∀ a ∈ (DanceArea.create modelW boxW rngHalf).correct,
        (∃ k : ℤ, a.duration = (k : ℚ) ∧ 1 ≤ k ∧ k ≤ 10) ∧
        a.direction ∈ directions ∧ a.display ∈ displays) :=
  have h : ∀ n, 0 ≤ rngHalf n ∧ rngHalf n < 1 :=
    fun _ => ⟨by norm_num [rngHalf], by norm_num [rngHalf]⟩
  ⟨h, (danceArea_correct_sequence_wellformed modelW boxW rngHalf h).1⟩

/-- C3: `updateModel` followed by `toModel` returns exactly the input model
with the area's original `id` substituted, and `updateModel` leaves `id`
unchanged. -/
theorem updateModel_toModel_roundtrip (a : DanceArea) (m : DanceAreaModel) :
    (a.updateModel m).toModel = { m with id := a.id } ∧ (a.updateModel m).id = a.id :=
  ⟨rfl, rfl⟩

/-- C5: a falsy (`0`) difficulty defaults to 15 with timer `300`; in general
the constructed timer is `20 *` the effective difficulty. -/
theorem create_difficulty_default (m : DanceAreaModel) (box : BoundingBox) (rng : ℕ → ℚ) :
    (m.difficulty = 0 →
      (DanceArea.create m box rng).difficulty = 15 ∧
      (DanceArea.create m box rng).timer = 300) ∧
    (DanceArea.create m box rng).timer =
      20 * ((DanceArea.create m box rng).difficulty : ℚ) := by
  unfold DanceArea.create
  constructor
  · intro h0
    simp [h0]
    norm_num [ARROWLENGTH]
  · by_cases h0 : m.difficulty = 0 <;> simp [h0] <;> norm_num [ARROWLENGTH]

def modelW0 : DanceAreaModel :=
  { id := "w0", difficulty := 0, correct := [], userClicks := [],
    leaderboard := [], currentScore := { userId := "", score := 0 }, timer := 0 }

/-- Witness for C5 at a model with falsy difficulty `0`. -/
theorem create_difficulty_default_witness :
    modelW0.difficulty = 0 ∧
    ((DanceArea.create modelW0 boxW rngHalf).difficulty = 15 ∧
      (DanceArea.create modelW0 boxW rngHalf).timer = 300) :=
  ⟨rfl, (create_difficulty_default modelW0 boxW rngHalf).1 rfl⟩

end Theorems

section Theorems2

/-- C4: `fromMapObject` fails with the missing-geometry error whenever
`width` or `height` is missing/falsy, and on a valid descriptor returns an
area whose `id` is the descriptor's `name`, whose bounding box is the
descriptor's geometry, whose difficulty is 15 and whose progress fields are
at their construction defaults (`correct` is the constructor's freshly
generated sequence). -/
theorem fromMapObject_spec (o : ITiledMapObject) (rng : ℕ → ℚ) :
    ((falsyNum o.width || falsyNum o.height) = true →
      DanceArea.fromMapObject o rng = Except.error "missing width/height for map object") ∧
    ((falsyNum o.width || falsyNum o.height) = false →
      ∃ a, DanceArea.fromMapObject o rng = Except.ok a ∧
        a.id = o.name ∧
        a.boundingBox =
          { x := o.x, y := o.y, width := o.width.getD 0, height := o.height.getD 0 } ∧
        a.difficulty = 15 ∧
        a.userClicks = [] ∧
        a.currentScore = { userId := "", score := 0 } ∧
        a.timer = 300 ∧
        a.correct = genCorrect rng) := by
  constructor
  · intro hfalsy
    unfold DanceArea.fromMapObject
    rw [hfalsy]
    rfl
  · intro hok
    unfold DanceArea.fromMapObject
    rw [hok]
    simp only [Bool.false_eq_true, if_false]
    refine ⟨_, rfl, rfl, rfl, rfl, rfl, rfl, ?_, rfl⟩
    show (ARROWLENGTH : ℚ) * (((15 : ℤ) : ℚ)) = 300
    norm_num [ARROWLENGTH]

def mapObjectW : ITiledMapObject :=
  { x := 30, y := 20, width := some 10, height := some 20, name := "w-map" }

/-- Witness for C4 at a valid descriptor. -/
theorem fromMapObject_spec_witness :
    ∃ a, DanceArea.fromMapObject mapObjectW rngHalf = Except.ok a ∧
      a.id = mapObjectW.name ∧
      a.boundingBox =
        { x := mapObjectW.x, y := mapObjectW.y,
          width := mapObjectW.width.getD 0, height := mapObjectW.height.getD 0 } ∧
      a.difficulty = 15 ∧
      a.userClicks = [] ∧
      a.currentScore = { userId := "", score := 0 } ∧
      a.timer = 300 ∧
      a.correct = genCorrect rngHalf :=
  (fromMapObject_spec mapObjectW rngHalf).2 rfl

/-- C7: the client `difficulty` setter emits nothing when set to the cached
value; set to a different value it emits exactly one `difficultyChange` event
carrying the new value, and the accessor then returns the new value. -/
theorem controller_difficulty_setter_spec (c : DanceAreaController) (difficulty : ℤ) :
    (c.defficulty = difficulty → c.setDifficulty difficulty = (c, [])) ∧
    (c.defficulty ≠ difficulty →
      (c.setDifficulty difficulty).2 = [ControllerEvent.difficultyChange difficulty] ∧
      (c.setDifficulty difficulty).1.defficulty = difficulty) := by
  constructor
  · intro heq
    simp [DanceAreaController.setDifficulty, DanceAreaController.defficulty] at heq ⊢
    simp [heq]
  · intro hne
    simp [DanceAreaController.defficulty] at hne
    simp [DanceAreaController.setDifficulty, hne, DanceAreaController.defficulty]

def controllerW : DanceAreaController :=
  ⟨{ id := "w-ctrl", difficulty := 15, correct := [], userClicks := [],
     leaderboard := [], currentScore := { userId := "alice", score := 1 }, timer := 300 }⟩

/-- Witness for C7: changing difficulty from 15 to 10. -/
theorem controller_difficulty_setter_spec_witness :
    controllerW.defficulty ≠ (10 : ℤ) ∧
    ((controllerW.setDifficulty 10).2 = [ControllerEvent.difficultyChange 10] ∧
      (controllerW.setDifficulty 10).1.defficulty = 10) :=
  ⟨by decide, (controller_difficulty_setter_spec controllerW 10).2 (by decide)⟩

def modelW6 : DanceAreaModel :=
  { id := "w-ctrl", difficulty := 10, correct := [], userClicks := [],
    leaderboard := [], currentScore := { userId := "bob", score := 2 }, timer := 200 }

/-- C6 (code divergence): `updateFrom` never propagates `currentScore`,
because the `currentScore` setter's guard compares the cached value with
itself; at the concrete failing input the incoming score `{bob, 2}` is
dropped while difficulty and timer are updated. -/
theorem updateFrom_currentScore_not_propagated :
    (∀ (c : DanceAreaController) (m : DanceAreaModel),
      (c.updateFrom m).1.currentScore = c.currentScore) ∧
    modelW6.currentScore = { userId := "bob", score := 2 } ∧
    (controllerW.updateFrom modelW6).1.currentScore = { userId := "alice", score := 1 } ∧
    (controllerW.updateFrom modelW6).1.defficulty = 10 ∧
    (controllerW.updateFrom modelW6).1.timer = 200 := by
  refine ⟨?_, rfl, by decide, by decide, by decide⟩
  intro c m
  simp [DanceAreaController.updateFrom, DanceAreaController.setDifficulty,
    DanceAreaController.setTimer, DanceAreaController.setCurrentScore,
    DanceAreaController.currentScore]
  split <;> split <;> rfl

/-- C9: the `correct`, `userClicks` and `leaderboard` setters never change
the cached model and never emit, for every input value, because each guard
compares the cached field with itself. -/
theorem controller_object_setters_never_fire (c : DanceAreaController)
    (arrows1 arrows2 : List Arrow) (scores : List ScoreObject) :
    c.setCorrect arrows1 = (c, []) ∧
    c.setUserClicks arrows2 = (c, []) ∧
    c.setLeaderboard scores = (c, []) := by
  refine ⟨?_, ?_, ?_⟩ <;>
    simp [DanceAreaController.setCorrect, DanceAreaController.setUserClicks,
      DanceAreaController.setLeaderboard, DanceAreaController.correct,
      DanceAreaController.userClicks, DanceAreaController.leaderboard]

end Theorems2

section Theorems3

/-- C2: removing the last occupant resets difficulty to 15, empties `correct`
and `userClicks`, zeroes `currentScore`, resets `timer` to 300, preserves the
leaderboard, and sends exactly one area-state broadcast carrying the reset
model (alongside the base class's location broadcast). -/
theorem remove_last_occupant_resets (a : DanceArea) (p : String)
    (h : a.occupants = [p]) :
    (a.remove p).1.difficulty = 15 ∧
    (a.remove p).1.correct = [] ∧
    (a.remove p).1.userClicks = [] ∧
    (a.remove p).1.currentScore = { userId := "", score := 0 } ∧
    (a.remove p).1.timer = 300 ∧
    (a.remove p).1.leaderboard = a.leaderboard ∧
    (a.remove p).2 =
      [TownEvent.playerMoved p none,
       TownEvent.interactableUpdate (a.remove p).1.toModel] := by
  refine ⟨?_, ?_, ?_, ?_, ?_, ?_, ?_⟩ <;>
    norm_num [DanceArea.remove, DanceArea.removeBase, DanceArea.emitAreaChanged, h,
      DanceArea.toModel, ARROWLENGTH]

def areaW2 : DanceArea :=
  { id := "w2", boundingBox := { x := 0, y := 0, width := 1, height := 1 },
    occupants := ["alice"], difficulty := 10,
    correct := [{ display := "⇦", direction := "L", duration := 3 }],
    userClicks := [{ display := "⇨", direction := "R", duration := 2 }],
    leaderboard := [{ userId := "bob", score := 7 }],
    currentScore := { userId := "alice", score := 4 }, timer := 200 }

/-- Witness for C2: the single occupant `alice` leaves `areaW2`. -/
theorem remove_last_occupant_resets_witness :
    areaW2.occupants = ["alice"] ∧
    ((areaW2.remove "alice").1.difficulty = 15 ∧
      (areaW2.remove "alice").1.correct = [] ∧
      (areaW2.remove "alice").1.userClicks = [] ∧
      (areaW2.remove "alice").1.currentScore = { userId := "", score := 0 } ∧
      (areaW2.remove "alice").1.timer = 300 ∧
      (areaW2.remove "alice").1.leaderboard = areaW2.leaderboard ∧
      (areaW2.remove "alice").2 =
        [TownEvent.playerMoved "alice" none,
         TownEvent.interactableUpdate (areaW2.remove "alice").1.toModel]) :=
  ⟨rfl, remove_last_occupant_resets areaW2 "alice" rfl⟩

/-- C8: removing one of at least two (distinct) occupants performs no reset —
all six game fields are unchanged — and still sends exactly one area-state
broadcast, carrying the unchanged model. -/
theorem remove_other_occupants_no_reset (a : DanceArea) (p : String)
    (h1 : a.occupants.Nodup) (h2 : 2 ≤ a.occupants.length) (h3 : p ∈ a.occupants) :
    (a.remove p).1.difficulty = a.difficulty ∧
    (a.remove p).1.correct = a.correct ∧
    (a.remove p).1.userClicks = a.userClicks ∧
    (a.remove p).1.leaderboard = a.leaderboard ∧
    (a.remove p).1.currentScore = a.currentScore ∧
    (a.remove p).1.timer = a.timer ∧
    (a.remove p).2 =
      [TownEvent.playerMoved p none, TownEvent.interactableUpdate a.toModel] := by
  obtain ⟨x, y, rest, hxy⟩ : ∃ x y rest, a.occupants = x :: y :: rest := by
    match hl : a.occupants with
    | [] => rw [hl] at h2; simp at h2
    | [x] => rw [hl] at h2; simp at h2
    | x :: y :: rest => exact ⟨x, y, rest, rfl⟩
  have hxyne : x ≠ y := by
    rw [hxy] at h1
    have hnotmem := (List.nodup_cons.mp h1).1
    intro hcontra
    exact hnotmem (hcontra ▸ List.mem_cons_self y rest)
  have hwitness : ∃ w ∈ a.occupants, w ≠ p := by
    rcases ne_or_eq x p with hxp | hxp
    · exact ⟨x, by rw [hxy]; exact List.mem_cons_self x (y :: rest), hxp⟩
    · exact ⟨y, by rw [hxy]; exact List.mem_cons_of_mem x (List.mem_cons_self y rest),
        fun hcontra => hxyne (hxp.trans hcontra.symm)⟩
  obtain ⟨w, hwmem, hwne⟩ := hwitness
  have hcond : ¬∀ q ∈ a.occupants, q = p := fun hall => hwne (hall w hwmem)
  refine ⟨?_, ?_, ?_, ?_, ?_, ?_, ?_⟩ <;>
    simp [DanceArea.remove, DanceArea.removeBase, DanceArea.emitAreaChanged, hcond,
      DanceArea.toModel]

def areaW8 : DanceArea :=
  { areaW2 with id := "w8", occupants := ["alice", "bob"] }

/-- Witness for C8: `alice` leaves while `bob` remains in `areaW8`. -/
theorem remove_other_occupants_no_reset_witness :
    areaW8.occupants.Nodup ∧ 2 ≤ areaW8.occupants.length ∧ "alice" ∈ areaW8.occupants ∧
    ((areaW8.remove "alice").1.difficulty = areaW8.difficulty ∧
      (areaW8.remove "alice").1.correct = areaW8.correct ∧
      (areaW8.remove "alice").1.userClicks = areaW8.userClicks ∧
      (areaW8.remove "alice").1.leaderboard = areaW8.leaderboard ∧
      (areaW8.remove "alice").1.currentScore = areaW8.currentScore ∧
      (areaW8.remove "alice").1.timer = areaW8.timer ∧
      (areaW8.remove "alice").2 =
        [TownEvent.playerMoved "alice" none,
         TownEvent.interactableUpdate areaW8.toModel]) :=
  ⟨by decide, by decide, by decide,
   remove_other_occupants_no_reset areaW8 "alice" (by decide) (by decide) (by decide)⟩

end Theorems3

section Theorems4

/-- A controller mutation: one setter invocation or one `updateFrom` call. -/
inductive ControllerOp where
  | setDifficulty (difficulty : ℤ)
  | setTimer (timer : ℚ)
  | setCurrentScore (currentScore : ScoreObject)
  | setCorrect (correct : List Arrow)
  | setUserClicks (userClicks : List Arrow)
  | setLeaderboard (leaderboard : List ScoreObject)
  | updateFrom (m : DanceAreaModel)

/-- Apply one controller mutation, keeping the resulting state. -/
def DanceAreaController.applyOp (c : DanceAreaController) : ControllerOp → DanceAreaController
  | ControllerOp.setDifficulty difficulty => (c.setDifficulty difficulty).1
  | ControllerOp.setTimer timer => (c.setTimer timer).1
  | ControllerOp.setCurrentScore currentScore => (c.setCurrentScore currentScore).1
  | ControllerOp.setCorrect correct => (c.setCorrect correct).1
  | ControllerOp.setUserClicks userClicks => (c.setUserClicks userClicks).1
  | ControllerOp.setLeaderboard leaderboard => (c.setLeaderboard leaderboard).1
  | ControllerOp.updateFrom m => (c.updateFrom m).1

lemma setDifficulty_id (c : DanceAreaController) (d : ℤ) :
    (c.setDifficulty d).1.id = c.id := by
  simp only [DanceAreaController.setDifficulty]
  split <;> rfl

lemma setTimer_id (c : DanceAreaController) (t : ℚ) :
    (c.setTimer t).1.id = c.id := by
  simp only [DanceAreaController.setTimer]
  split <;> rfl

lemma setCurrentScore_id (c : DanceAreaController) (s : ScoreObject) :
    (c.setCurrentScore s).1.id = c.id := by
  simp only [DanceAreaController.setCurrentScore]
  split <;> rfl

lemma applyOp_id (c : DanceAreaController) (op : ControllerOp) :
    (c.applyOp op).id = c.id := by
  cases op with
  | setDifficulty difficulty => exact setDifficulty_id c difficulty
  | setTimer timer => exact setTimer_id c timer
  | setCurrentScore currentScore => exact setCurrentScore_id c currentScore
  | setCorrect correct =>
      simp only [DanceAreaController.applyOp, DanceAreaController.setCorrect]
      split <;> rfl
  | setUserClicks userClicks =>
      simp only [DanceAreaController.applyOp, DanceAreaController.setUserClicks]
      split <;> rfl
  | setLeaderboard leaderboard =>
      simp only [DanceAreaController.applyOp, DanceAreaController.setLeaderboard]
      split <;> rfl
  | updateFrom m =>
      show ((((c.setDifficulty m.difficulty).1.setTimer m.timer).1.setCurrentScore
        m.currentScore).1).id = c.id
      rw [setCurrentScore_id, setTimer_id, setDifficulty_id]

/-- C10: the controller's `id` after any sequence of setter invocations and
`updateFrom` calls equals the `id` it had at construction from the initial
model. -/
theorem controller_id_invariant (m : DanceAreaModel) (ops : List ControllerOp) :
    (ops.foldl DanceAreaController.applyOp ⟨m⟩).id = DanceAreaController.id ⟨m⟩ := by
  suffices hgen : ∀ (c : DanceAreaController) (ops : List ControllerOp),
      (ops.foldl DanceAreaController.applyOp c).id = c.id from hgen ⟨m⟩ ops
  intro c ops
  induction ops generalizing c with
  | nil => rfl
  | cons op rest ih =>
      rw [List.foldl_cons, ih, applyOp_id]

end Theorems4
